import Mathlib

/-!
Shallow embedding of the semantic retrieval core of the Douban-Viz
repository (`src/analysis/vector_service.py`, class `VectorService`),
together with theorems settling the frozen claims about it.

Modelling conventions:
* The external collaborators (movie repository, on-disk pickle cache,
  sentence-transformer encoder) are inputs gathered in an `Env` record.
  The encoder is an opaque function `String → List ℚ`; per the source
  (`encode(..., normalize_embeddings=True)`) its outputs are unit
  vectors, so `sklearn.cosine_similarity` on them equals the plain dot
  product, which is how `cosSim` is defined.
* The mutable fields of the Python object (`model`, `vectors`,
  `movie_ids`, `id_to_meta`) form the `VSState` record; a method that
  can raise returns the final state together with an optional error,
  mirroring Python exception propagation (an exception leaves behind
  whatever assignments already happened).
* Database rows are modelled as records with the twelve columns the
  source names (`0:id, 1:url, 2:pic, 3:title, 4:score, 5:rated,
  6:intro, 7:year, 8:country, 9:category, 10:directors, 11:actors`).
* `np.argsort(x)[::-1]` is modelled as a stable ascending sort of the
  index list followed by `reverse`.
-/

deriving instance DecidableEq for Except

namespace DV

/-- A vector of rationals stands for one embedding row. -/
abbrev Vec := List ℚ

/-- One database row, fields in the column order documented in
`build_index` (`0:id ... 11:actors`). -/
structure Movie where
  id : String
  url : String
  pic : String
  title : String
  score : String
  rated : String
  intro : String
  year : String
  country : String
  category : String
  directors : String
  actors : String
deriving DecidableEq

/-- The per-movie display metadata stored in `id_to_meta`
(`build_index`, lines 111-124 of the source). -/
structure MovieMeta where
  title : String
  score : String
  pic : String
  intro : String
  url : String
  year : String
  country : String
  category : String
  director : String
  actor : String
deriving DecidableEq

/-- An all-empty metadata record, used only as the default of total
lookups whose key is always present for generations built by
`buildIndex` (proved in the alignment theorem). -/
def defaultMeta : MovieMeta := ⟨"", "", "", "", "", "", "", "", "", ""⟩

/-- One complete generation: the triple stored in the pickle cache blob
by `_save_to_cache` and read back by `_load_from_cache`. -/
structure Gen where
  vectors : List Vec
  movie_ids : List String
  id_to_meta : List (String × MovieMeta)
deriving DecidableEq

/-- The mutable fields of the `VectorService` object: `self.model`
(abstracted to whether it is loaded), `self.model_name`, `self.vectors`,
`self.movie_ids`, `self.id_to_meta`. -/
structure VSState where
  modelLoaded : Bool
  modelName : String
  vectors : Option (List Vec)
  movie_ids : Option (List String)
  id_to_meta : Option (List (String × MovieMeta))
deriving DecidableEq

/-- The state right after `__init__`: nothing loaded, default model. -/
def initState : VSState :=
  ⟨false, "BAAI/bge-large-zh-v1.5", none, none, none⟩

/-- The external collaborators of one run: the repository contents
(`repo.get_all_movies()`), the cache file (`none` = absent,
`some (.error ())` = present but `pickle.load` raises,
`some (.ok g)` = deserializes to `g`), whether loading the encoder
succeeds, whether the batch encode call succeeds, and the opaque
encoder itself. -/
structure Env where
  records : List Movie
  cache : Option (Except Unit Gen)
  loadModelOk : Bool
  encodeOk : Bool
  enc : String → Vec

/-- Exceptions the embedded methods can raise: encoder-load failure,
batch-encode failure, and Python `TypeError` from using `None` where a
list or array is expected. -/
inductive VErr
  | modelLoad
  | encodeFail
  | typeNone
deriving DecidableEq

/-- Result of one `build_index` call: the final object state, the cache
blob written by `_save_to_cache` (if reached), whether the underlying
batch encode ran (the observable "performed a build" event), and the
propagated exception if any. -/
structure BuildOut where
  state : VSState
  written : Option Gen
  didEncode : Bool
  err : Option VErr
deriving DecidableEq

/-- Whitespace characters removed by Python `str.strip()`. -/
def isPySpace (c : Char) : Bool :=
  c == ' ' || c == '\t' || c == '\n' || c == '\r' || c == '\x0b' || c == '\x0c'

/-- Python `str.strip()`: drop leading and trailing whitespace. -/
def pyStrip (s : String) : String :=
  ⟨((s.data.dropWhile isPySpace).reverse.dropWhile isPySpace).reverse⟩

/-- Python `str.lower()`. -/
def pyLower (s : String) : String :=
  ⟨s.data.map Char.toLower⟩

/-- Whether `needle` occurs at the head of `hay`. -/
def leadEq : List Char → List Char → Bool
  | [], _ => true
  | _ :: _, [] => false
  | a :: as, b :: bs => a == b && leadEq as bs

/-- Python substring test `needle in hay` on the underlying characters. -/
def hasSub (needle : List Char) : List Char → Bool
  | [] => leadEq needle []
  | b :: bs => leadEq needle (b :: bs) || hasSub needle bs

/-- The indexability filter of `build_index` line 73:
`m[6] and len(m[6].strip()) > 5` (Python truthiness of the intro string,
then the stripped-length test). -/
def indexable (m : Movie) : Bool :=
  !(m.intro == "") && decide ((pyStrip m.intro).length > 5)

/-- The natural-language sentence rendered for one movie
(`build_index` lines 97-106), with each clause included only when the
corresponding field is truthy (non-empty). -/
def renderSentence (m : Movie) : String :=
  let meta_part := "电影《" ++ m.title ++ "》"
  let meta_part := if m.year == "" then meta_part else meta_part ++ "于" ++ m.year ++ "年上映"
  let meta_part := if m.country == "" then meta_part else meta_part ++ "，产地" ++ m.country
  let meta_part := if m.category == "" then meta_part else meta_part ++ "，类型为" ++ m.category
  let staff_part := ""
  let staff_part := if m.directors == "" then staff_part else staff_part ++ "。由" ++ m.directors ++ "执导"
  let staff_part := if m.actors == "" then staff_part else staff_part ++ "，" ++ m.actors ++ "主演"
  meta_part ++ staff_part ++ "。剧情简介：" ++ m.intro

/-- The metadata record built for one movie (`build_index` lines
111-123). -/
def metaOfMovie (m : Movie) : MovieMeta :=
  ⟨m.title, m.score, m.pic, m.intro, m.url, m.year, m.country, m.category, m.directors, m.actors⟩

/-- Whether the assoc-list dictionary holds key `k`. -/
def hasKey (d : List (String × MovieMeta)) (k : String) : Bool :=
  d.any (fun p => p.1 == k)

/-- Python-dict insertion: overwrite the value when the key is present,
otherwise append the new binding (preserving insertion order). -/
def dictInsert (d : List (String × MovieMeta)) (k : String) (v : MovieMeta) :
    List (String × MovieMeta) :=
  if hasKey d k then d.map (fun p => if p.1 == k then (k, v) else p)
  else d ++ [(k, v)]

/-- The dict comprehension `{m[0]: {...} for m in valid_movies}`. -/
def buildMetaDict (ms : List Movie) : List (String × MovieMeta) :=
  ms.foldl (fun d m => dictInsert d m.id (metaOfMovie m)) []

/-- Python-dict lookup as an option (`d[k]` raises `KeyError` when this
is `none`). -/
def dictFind (d : List (String × MovieMeta)) (k : String) : Option MovieMeta :=
  (d.find? (fun p => p.1 == k)).map (fun p => p.2)

/-- Total dict lookup with the default metadata record; for generations
built by `buildIndex` the key is always present. -/
def dictGetD (d : List (String × MovieMeta)) (k : String) : MovieMeta :=
  (dictFind d k).getD defaultMeta

/-- The `_load_from_cache` assignments: all three generation fields are
replaced by the cache blob contents (source lines 140-145). -/
def adoptGen (s : VSState) (g : Gen) : VSState :=
  { s with vectors := some g.vectors, movie_ids := some g.movie_ids,
           id_to_meta := some g.id_to_meta }

/-- The rebuild section of `build_index` (source lines 67-130): load
the model, fetch and filter the records, render sentences, assign
`movie_ids` and `id_to_meta`, then batch-encode and assign `vectors`
and write the cache. Note that the identifier and metadata assignments
happen before the encode call, exactly as in the source. -/
def rebuildPhase (env : Env) (s : VSState) : BuildOut :=
  if !s.modelLoaded && !env.loadModelOk then ⟨s, none, false, some .modelLoad⟩
  else
    let s1 := { s with modelLoaded := true }
    let valid := env.records.filter indexable
    if valid.isEmpty then ⟨s1, none, false, none⟩
    else
      let sentences := valid.map renderSentence
      let s2 := { s1 with movie_ids := some (valid.map (fun m => m.id)),
                          id_to_meta := some (buildMetaDict valid) }
      if !env.encodeOk then ⟨s2, none, false, some .encodeFail⟩
      else
        let vecs := sentences.map env.enc
        let s3 := { s2 with vectors := some vecs }
        ⟨s3, some ⟨vecs, valid.map (fun m => m.id), buildMetaDict valid⟩, true, none⟩

/-- The whole of `build_index(force_refresh)` (source lines 39-130):
early return when a generation exists and the call is not forced;
otherwise the cache probe (deserialize, compare identifier count with
the live record count, adopt on match, fall through to a rebuild on
staleness or deserialization failure); otherwise the full rebuild. -/
def buildIndex (env : Env) (force : Bool) (s : VSState) : BuildOut :=
  if !force && s.vectors.isSome then ⟨s, none, false, none⟩
  else
    match (if force then none else env.cache) with
    | some (Except.ok g) =>
        let s1 := adoptGen s g
        if g.movie_ids.length = env.records.length then ⟨s1, none, false, none⟩
        else rebuildPhase env s1
    | some (Except.error _) => rebuildPhase env s
    | none => rebuildPhase env s

/-! ### Query engine (`search`, `search_by_id`) -/

/-- One search hit as materialized by `search` (source lines 221-230). -/
structure Result where
  id : String
  title : String
  score : String
  pic : String
  intro : String
  url : String
  year : String
  similarity : ℚ
deriving DecidableEq

/-- One similar-movie hit as materialized by `search_by_id` (source
lines 270-282; no `url` field, similarity rescaled to 0-100). -/
structure SimResult where
  id : String
  title : String
  score : String
  pic : String
  intro : String
  year : String
  similarity : ℚ
deriving DecidableEq

/-- Dot product of two embedding rows. -/
def dot (a b : Vec) : ℚ :=
  (a.zip b).foldl (fun acc p => acc + p.1 * p.2) 0

/-- Cosine similarity of two stored embedding rows. The encoder is
called with `normalize_embeddings=True`, so all rows are unit vectors
and `sklearn.cosine_similarity` equals the plain dot product. -/
def cosSim (a b : Vec) : ℚ := dot a b

/-- Comparison of two row indices by their similarity score, the order
underlying `np.argsort(similarity)`. -/
def simLe (sims : List ℚ) (i j : Nat) : Prop :=
  sims.getD i 0 ≤ sims.getD j 0

instance (sims : List ℚ) : DecidableRel (simLe sims) := fun i j =>
  inferInstanceAs (Decidable (sims.getD i 0 ≤ sims.getD j 0))

instance (sims : List ℚ) : IsTotal Nat (simLe sims) :=
  ⟨fun i j => le_total (sims.getD i 0) (sims.getD j 0)⟩

instance (sims : List ℚ) : IsTrans Nat (simLe sims) :=
  ⟨fun _ _ _ hij hjk => le_trans hij hjk⟩

/-- The model of `np.argsort(similarity)[::-1]`: a stable ascending
sort of the row indices by score, reversed. -/
def argsortDesc (sims : List ℚ) : List Nat :=
  (List.insertionSort (simLe sims) (List.range sims.length)).reverse

/-- A Python value passed as a filter bound: either a number or a
string; comparing an `int` against a `str` raises `TypeError`, which is
how a malformed filter value faults during candidate evaluation. -/
inductive PyVal
  | int (n : Int)
  | str (s : String)
deriving DecidableEq

/-- Python truthiness of a filter value. -/
def pyTruthy : PyVal → Bool
  | PyVal.int n => !(n == 0)
  | PyVal.str s => !(s == "")

/-- Python `y < v` for `y : int`: raises `TypeError` when `v` is a
string. -/
def pyLtInt (y : Int) : PyVal → Except Unit Bool
  | PyVal.int n => Except.ok (decide (y < n))
  | PyVal.str _ => Except.error ()

/-- Python `y > v` for `y : int`: raises `TypeError` when `v` is a
string. -/
def pyGtInt (y : Int) : PyVal → Except Unit Bool
  | PyVal.int n => Except.ok (decide (n < y))
  | PyVal.str _ => Except.error ()

/-- Python `v in s` for a string `s`: raises `TypeError` when `v` is
not a string. -/
def pyInStr (v : PyVal) (s : String) : Except Unit Bool :=
  match v with
  | PyVal.str c => Except.ok (hasSub c.data s.data)
  | PyVal.int _ => Except.error ()

/-- The filter dictionary accepted by `search`: a key absent from the
dict is `none`. -/
structure Filters where
  year_min : Option PyVal
  year_max : Option PyVal
  country : Option PyVal
  category : Option PyVal
  director : Option PyVal
  actor : Option PyVal
deriving DecidableEq

/-- The empty filter dictionary. -/
def noFilters : Filters := ⟨none, none, none, none, none, none⟩

/-- First match of the regex `\d{4}`: the first run of four consecutive
digits, as in `re.search` on the metadata year field. -/
def findYear4 : List Char → Option (List Char)
  | [] => none
  | a :: rest =>
    match rest with
    | b :: c :: d :: _ =>
      if a.isDigit && b.isDigit && c.isDigit && d.isDigit then some [a, b, c, d]
      else findYear4 rest
    | _ => none

/-- Numeric value of a digit string (`int(y_str.group())`). -/
def digitsVal (cs : List Char) : Int :=
  Int.ofNat (cs.foldl (fun acc c => acc * 10 + (c.toNat - 48)) 0)

/-- The body of the `try` block of `search` (source lines 192-214):
evaluate the year-range, country, category, director and actor filters
in order; `Except.ok false` is a `continue` (candidate rejected),
`Except.ok true` falls through to the append, `Except.error` is an
exception escaping the `try`. -/
def applyFiltersE (f : Filters) (meta : MovieMeta) : Except Unit Bool := do
  if f.year_min.isSome || f.year_max.isSome then
    let y : Int :=
      match findYear4 meta.year.data with
      | some cs => digitsVal cs
      | none => 0
    match f.year_min with
    | some v => if (← pyLtInt y v) then return false
    | none => pure ()
    match f.year_max with
    | some v => if (← pyGtInt y v) then return false
    | none => pure ()
  match f.country with
  | some v => if pyTruthy v then if !(← pyInStr v meta.country) then return false
  | none => pure ()
  match f.category with
  | some v => if pyTruthy v then if !(← pyInStr v meta.category) then return false
  | none => pure ()
  match f.director with
  | some v => if pyTruthy v then if !(← pyInStr v meta.director) then return false
  | none => pure ()
  match f.actor with
  | some v => if pyTruthy v then if !(← pyInStr v meta.actor) then return false
  | none => pure ()
  return true

/-- The `try/except: pass` wrapper around the filters: an exception
while evaluating them lets the candidate fall through to the append,
i.e. the candidate passes (fail-open). -/
def passFilters (f : Filters) (meta : MovieMeta) : Bool :=
  match applyFiltersE f meta with
  | Except.error _ => true
  | Except.ok b => b

/-- One materialized `search` hit (source lines 221-230). -/
def mkSearchResult (movie_id : String) (meta : MovieMeta) (score : ℚ) : Result :=
  ⟨movie_id, meta.title, meta.score, meta.pic, meta.intro.take 100 ++ "...",
    meta.url, meta.year, score⟩

/-- The candidate loop of `search` (source lines 183-230): walk the
sorted indices, stop once `top_k` results are gathered, append each
candidate that passes the (fail-open) filters. -/
def scanCandidates (sims : List ℚ) (ids : List String)
    (dict : List (String × MovieMeta)) (f : Filters) :
    List Nat → Nat → List Result
  | [], _ => []
  | i :: rest, k =>
    if k = 0 then []
    else
      let score := sims.getD i 0
      let movie_id := ids.getD i ""
      let meta := dictGetD dict movie_id
      if passFilters f meta then
        mkSearchResult movie_id meta score :: scanCandidates sims ids dict f rest (k - 1)
      else
        scanCandidates sims ids dict f rest k

/-- The BGE query-instruction prepending of `search` lines 170-172. -/
def bgeQueryText (modelName query : String) : String :=
  if hasSub "bge".data (pyLower modelName).data then
    "为这个句子生成表示以用于检索相关文章：" ++ query
  else query

/-- The whole of `search(query, top_k, filters)` (source lines
147-232): trigger a build when no generation exists (propagating its
exception), return `[]` when there is still no generation or it is
empty, load the model, encode the query, rank all rows by similarity
and scan them through the filters. -/
def search (env : Env) (s : VSState) (query : String) (top_k : Nat)
    (f : Filters) : Except VErr (List Result) :=
  let b := if s.vectors.isNone then buildIndex env false s else ⟨s, none, false, none⟩
  match b.err with
  | some e => Except.error e
  | none =>
    let s1 := b.state
    match s1.vectors with
    | none => Except.ok []
    | some vecs =>
      if vecs.length = 0 then Except.ok []
      else if !s1.modelLoaded && !env.loadModelOk then Except.error VErr.modelLoad
      else
        let qv := env.enc (bgeQueryText s1.modelName query)
        let sims := vecs.map (cosSim qv)
        let ids := s1.movie_ids.getD []
        let dict := s1.id_to_meta.getD []
        Except.ok (scanCandidates sims ids dict f (argsortDesc sims) top_k)

/-- Python banker's rounding of a rational to the nearest integer
(`round` rounds half to even). -/
def roundHalfEven (q : ℚ) : Int :=
  let f := q.floor
  let r := q - (f : ℚ)
  if r < 1 / 2 then f
  else if 1 / 2 < r then f + 1
  else if f % 2 = 0 then f else f + 1

/-- Python `round(x, 1)`. -/
def pyRound1 (q : ℚ) : ℚ :=
  (roundHalfEven (q * 10) : ℚ) / 10

/-- One materialized `search_by_id` hit (source lines 270-282). -/
def mkSimResult (movie_id : String) (meta : MovieMeta) (score : ℚ) : SimResult :=
  ⟨movie_id, meta.title, meta.score, meta.pic, meta.intro.take 60 ++ "...",
    meta.year, pyRound1 (score * 100)⟩

/-- The whole of `search_by_id(movie_id, top_k)` (source lines
234-283): trigger a build when no generation exists (propagating its
exception); the membership test `movie_id not in self.movie_ids`
raises `TypeError` when `movie_ids` is still `None`; otherwise locate
the row, rank every row by similarity to it, and take the hits ranked
2nd through `top_k+1`. -/
def searchById (env : Env) (s : VSState) (movie_id : String) (top_k : Nat) :
    Except VErr (List SimResult) :=
  let b := if s.vectors.isNone then buildIndex env false s else ⟨s, none, false, none⟩
  match b.err with
  | some e => Except.error e
  | none =>
    let s1 := b.state
    match s1.movie_ids with
    | none => Except.error VErr.typeNone
    | some ids =>
      if !(ids.contains movie_id) then Except.ok []
      else
        match s1.vectors with
        | none => Except.error VErr.typeNone
        | some vecs =>
          let idx := ids.indexOf movie_id
          let target := vecs.getD idx []
          let sims := vecs.map (cosSim target)
          let tops := ((argsortDesc sims).drop 1).take top_k
          let dict := s1.id_to_meta.getD []
          Except.ok (tops.map (fun i =>
            mkSimResult (ids.getD i "") (dictGetD dict (ids.getD i "")) (sims.getD i 0)))

/-- Identifier sequence of a `search_by_id` outcome (empty on an
exception). -/
def simResultIds : Except VErr (List SimResult) → List String
  | Except.ok l => l.map (fun r => r.id)
  | Except.error _ => []

/-- Number of hits of a `search` outcome (zero on an exception). -/
def okLength : Except VErr (List Result) → Nat
  | Except.ok l => l.length
  | Except.error _ => 0

/-! ### Concrete instances used by witnesses and counterexamples -/

/-- A movie with a long description, an indexable record. -/
def mv1 : Movie :=
  ⟨"m1", "url1", "pic1", "影片一", "9.0", "r", "A great story about friendship.",
    "2001", "美国", "剧情", "导演一", "演员一"⟩

/-- A second indexable movie. -/
def mv2 : Movie :=
  ⟨"m2", "url2", "pic2", "影片二", "8.5", "r", "A war film set in 1944.",
    "1999", "法国", "战争", "导演二", "演员二"⟩

/-- A third indexable movie. -/
def mv3 : Movie :=
  ⟨"m3", "url3", "pic3", "影片三", "7.0", "r", "Eleven char",
    "2010", "英国", "喜剧", "导演三", "演员三"⟩

/-- A movie whose stripped description has length at most 5, hence not
indexable. -/
def mshort : Movie :=
  ⟨"m0", "u", "p", "短片", "7", "r", "  hi   ", "2000", "", "", "", ""⟩

/-- An environment with two identical stored embedding rows, producing
a similarity tie between a movie and its duplicate. -/
def envTie : Env := ⟨[], none, true, true, fun _ => []⟩

/-- A published generation with two identical vectors, identifiers
`a` and `b`. -/
def sTie : VSState :=
  ⟨true, "m", some [[1, 0], [1, 0]], some ["a", "b"],
    some [("a", metaOfMovie mv1), ("b", metaOfMovie mv2)]⟩

/-- A published generation with two distinct orthogonal vectors. -/
def sDistinct : VSState :=
  ⟨true, "m", some [[1, 0], [0, 1]], some ["a", "b"],
    some [("a", metaOfMovie mv1), ("b", metaOfMovie mv2)]⟩

/-- A published generation with a single entry. -/
def sOne : VSState :=
  ⟨true, "m", some [[1, 0]], some ["a"], some [("a", metaOfMovie mv1)]⟩

/-- An environment whose repository is empty (zero indexable records),
with no cache file and a working encoder. -/
def envEmptyRepo : Env := ⟨[], none, true, true, fun _ => []⟩

/-- An environment with two indexable records, no cache file and a
working encoder. -/
def envTwo : Env := ⟨[mv1, mv2], none, true, true, fun _ => [1, 0]⟩

/-- An environment where the batch encode call raises. -/
def envEncodeFail : Env := ⟨[mv1], none, true, false, fun _ => [1, 0]⟩

/-- An environment where loading the encoder raises. -/
def envLoadFail : Env := ⟨[mv1], none, false, true, fun _ => [1, 0]⟩

/-- A previously published one-entry generation, used to observe what a
failed rebuild leaves behind. -/
def sOld : VSState :=
  ⟨true, "m", some [[5]], some ["old"], some [("old", metaOfMovie mv2)]⟩

/-- A cache blob whose identifier count matches `envTwo` (2 records). -/
def gFresh : Gen := ⟨[[1, 0], [0, 1]], ["c1", "c2"], [("c1", metaOfMovie mv1), ("c2", metaOfMovie mv2)]⟩

/-- A cache blob whose identifier count does not match `envTwo`. -/
def gStale : Gen := ⟨[[1, 0]], ["c1"], [("c1", metaOfMovie mv1)]⟩

/-- `envTwo` with a fresh cache blob present. -/
def envCacheFresh : Env := ⟨[mv1, mv2], some (Except.ok gFresh), true, true, fun _ => [1, 0]⟩

/-- `envTwo` with a stale cache blob present. -/
def envCacheStale : Env := ⟨[mv1, mv2], some (Except.ok gStale), true, true, fun _ => [1, 0]⟩

/-- `envTwo` with a corrupt cache blob (deserialization raises). -/
def envCacheCorrupt : Env := ⟨[mv1, mv2], some (Except.error ()), true, true, fun _ => [1, 0]⟩

/-- A filter dictionary holding a malformed (string-valued) year bound:
comparing the extracted integer year against it raises `TypeError`. -/
def faultyFilters : Filters := ⟨some (PyVal.str "bad"), none, none, none, none, none⟩

/-- A published three-entry generation for the result-count bounds. -/
def sThree : VSState :=
  ⟨true, "m", some [[1, 0], [0, 1], [1, 0]], some ["a", "b", "c"],
    some [("a", metaOfMovie mv1), ("b", metaOfMovie mv2), ("c", metaOfMovie mv3)]⟩

/-- An all-empty movie record, default of total list accesses. -/
def defaultMovie : Movie := ⟨"", "", "", "", "", "", "", "", "", "", "", ""⟩

/-! ### Helper lemmas about the sorted index list -/

/-- The descending argsort is a permutation of the row indices. -/
theorem argsortDesc_perm (sims : List ℚ) :
    List.Perm (argsortDesc sims) (List.range sims.length) :=
  ((List.insertionSort (simLe sims) (List.range sims.length)).reverse_perm).trans
    (List.perm_insertionSort (simLe sims) (List.range sims.length))

/-- The descending argsort has no duplicate indices. -/
theorem argsortDesc_nodup (sims : List ℚ) : (argsortDesc sims).Nodup :=
  ((argsortDesc_perm sims).nodup_iff).mpr (List.nodup_range _)

/-- Membership in the descending argsort is exactly being a row index. -/
theorem argsortDesc_mem_iff (sims : List ℚ) (i : Nat) :
    i ∈ argsortDesc sims ↔ i < sims.length := by
  rw [(argsortDesc_perm sims).mem_iff, List.mem_range]

/-- The descending argsort is sorted by non-increasing score. -/
theorem argsortDesc_pairwise (sims : List ℚ) :
    (argsortDesc sims).Pairwise (fun a b => sims.getD b 0 ≤ sims.getD a 0) := by
  have h := List.sorted_insertionSort (simLe sims) (List.range sims.length)
  exact List.pairwise_reverse.mpr h

/-- A row whose score strictly dominates every other row is the head of
the descending argsort. -/
theorem argsortDesc_head_max (sims : List ℚ) (idx : Nat) (hidx : idx < sims.length)
    (hstrict : ∀ j, j < sims.length → j ≠ idx → sims.getD j 0 < sims.getD idx 0) :
    ∃ t, argsortDesc sims = idx :: t := by
  have hmem : idx ∈ argsortDesc sims := (argsortDesc_mem_iff sims idx).mpr hidx
  cases hds : argsortDesc sims with
  | nil =>
    rw [hds] at hmem
    simp at hmem
  | cons h t =>
    have hpw := argsortDesc_pairwise sims
    rw [hds] at hpw hmem
    by_cases hh : h = idx
    · exact ⟨t, by rw [hh]⟩
    · have hidx_t : idx ∈ t := by
        rcases List.mem_cons.mp hmem with h1 | h2
        · exact absurd h1.symm hh
        · exact h2
      have hle : sims.getD idx 0 ≤ sims.getD h 0 := (List.pairwise_cons.mp hpw).1 idx hidx_t
      have hh_lt : h < sims.length := by
        rw [← argsortDesc_mem_iff sims h, hds]
        exact List.mem_cons_self h t
      exact absurd (lt_of_le_of_lt hle (hstrict h hh_lt hh)) (lt_irrefl _)

/-! ### Helper lemmas about the build paths -/

/-- A rebuild with a working encoder and a nonempty indexable corpus
publishes the freshly built generation, writes the cache and reports
the encode. -/
theorem rebuildPhase_success (env : Env) (s : VSState)
    (hload : env.loadModelOk = true) (henc : env.encodeOk = true)
    (hne : (env.records.filter indexable).isEmpty = false) :
    rebuildPhase env s =
      ⟨{ s with modelLoaded := true,
                movie_ids := some ((env.records.filter indexable).map (fun m => m.id)),
                id_to_meta := some (buildMetaDict (env.records.filter indexable)),
                vectors := some (((env.records.filter indexable).map renderSentence).map env.enc) },
        some ⟨((env.records.filter indexable).map renderSentence).map env.enc,
              (env.records.filter indexable).map (fun m => m.id),
              buildMetaDict (env.records.filter indexable)⟩,
        true, none⟩ := by
  simp [rebuildPhase, hload, henc, hne]

/-! ### Helper lemmas about the metadata dictionary -/

/-- Holding a key means some binding carries it. -/
theorem hasKey_iff (d : List (String × MovieMeta)) (k : String) :
    hasKey d k = true ↔ ∃ p ∈ d, p.1 = k := by
  simp [hasKey, List.any_eq_true, beq_iff_eq]

/-- Keys after a dict insertion: the old keys plus the inserted one. -/
theorem hasKey_dictInsert_iff (d : List (String × MovieMeta)) (k k2 : String) (v : MovieMeta) :
    hasKey (dictInsert d k v) k2 = true ↔ (hasKey d k2 = true ∨ k2 = k) := by
  by_cases h : hasKey d k = true
  · simp only [dictInsert, h, if_true]
    rw [hasKey_iff, hasKey_iff]
    constructor
    · rintro ⟨p, hp, hpk⟩
      rcases List.mem_map.mp hp with ⟨x, hx, hxe⟩
      cases hxk : (x.1 == k) with
      | true =>
        rw [hxk] at hxe
        simp only [if_true] at hxe
        right
        rw [← hpk, ← hxe]
      | false =>
        rw [hxk] at hxe
        simp only [Bool.false_eq_true, if_false] at hxe
        left
        exact ⟨x, hx, by rw [hxe, hpk]⟩
    · rintro (⟨p, hp, hpk⟩ | hk2)
      · by_cases hpk2 : p.1 = k
        · refine ⟨(k, v), List.mem_map.mpr ⟨p, hp, by simp [hpk2]⟩, ?_⟩
          rw [← hpk, hpk2]
        · exact ⟨p, List.mem_map.mpr ⟨p, hp, by simp [hpk2]⟩, hpk⟩
      · rcases (hasKey_iff d k).mp h with ⟨p, hp, hpk⟩
        refine ⟨(k, v), List.mem_map.mpr ⟨p, hp, by simp [hpk]⟩, hk2.symm⟩
  · have h2 : hasKey d k = false := by
      cases hb : hasKey d k
      · rfl
      · exact absurd hb h
    simp only [dictInsert, h2, Bool.false_eq_true, if_false]
    rw [hasKey_iff, hasKey_iff]
    constructor
    · rintro ⟨p, hp, hpk⟩
      rcases List.mem_append.mp hp with hp2 | hp2
      · exact Or.inl ⟨p, hp2, hpk⟩
      · right
        have hpv : p = (k, v) := by simpa using hp2
        rw [← hpk, hpv]
    · rintro (⟨p, hp, hpk⟩ | hk2)
      · exact ⟨p, List.mem_append.mpr (Or.inl hp), hpk⟩
      · exact ⟨(k, v), List.mem_append.mpr (Or.inr (by simp)), hk2.symm⟩

/-- Inserting a fresh key grows the dict by one binding. -/
theorem dictInsert_length_new (d : List (String × MovieMeta)) (k : String) (v : MovieMeta)
    (h : hasKey d k = false) : (dictInsert d k v).length = d.length + 1 := by
  simp [dictInsert, h]

/-- Folding distinct fresh ids into a dict adds one binding each. -/
theorem buildMetaDict_go (ms : List Movie) : ∀ (d : List (String × MovieMeta)),
    (ms.map (fun m => m.id)).Nodup → (∀ m ∈ ms, hasKey d m.id = false) →
    (ms.foldl (fun d m => dictInsert d m.id (metaOfMovie m)) d).length
      = d.length + ms.length := by
  induction ms with
  | nil =>
    intro d _ _
    simp
  | cons m rest ih =>
    intro d hnd hfresh
    rw [List.map_cons] at hnd
    simp only [List.foldl_cons]
    have hk : hasKey d m.id = false := hfresh m (List.mem_cons_self m rest)
    have hfresh2 : ∀ m2 ∈ rest, hasKey (dictInsert d m.id (metaOfMovie m)) m2.id = false := by
      intro m2 hm2
      cases hb : hasKey (dictInsert d m.id (metaOfMovie m)) m2.id
      · rfl
      · exfalso
        rcases (hasKey_dictInsert_iff d m.id m2.id (metaOfMovie m)).mp hb with h2 | h2
        · rw [hfresh m2 (List.mem_cons_of_mem m hm2)] at h2
          exact Bool.false_ne_true h2
        · exact (List.nodup_cons.mp hnd).1 (h2 ▸ List.mem_map_of_mem _ hm2)
    rw [ih (dictInsert d m.id (metaOfMovie m)) (List.nodup_cons.mp hnd).2 hfresh2,
      dictInsert_length_new d m.id _ hk]
    simp only [List.length_cons]
    omega

/-- Distinct record ids give a metadata dict with one binding per
record. -/
theorem buildMetaDict_length (ms : List Movie)
    (h : (ms.map (fun m => m.id)).Nodup) :
    (buildMetaDict ms).length = ms.length := by
  have h2 := buildMetaDict_go ms [] h (fun m _ => rfl)
  simpa [buildMetaDict] using h2

/-- Every inserted id (and every previously held key) is a key of the
folded dict. -/
theorem hasKey_foldl_of_mem (ms : List Movie) : ∀ (d : List (String × MovieMeta)) (a : String),
    (hasKey d a = true ∨ a ∈ ms.map (fun m => m.id)) →
    hasKey (ms.foldl (fun d m => dictInsert d m.id (metaOfMovie m)) d) a = true := by
  induction ms with
  | nil =>
    intro d a h
    rcases h with h | h
    · exact h
    · simp at h
  | cons m rest ih =>
    intro d a h
    simp only [List.foldl_cons]
    apply ih
    rcases h with h | h
    · exact Or.inl ((hasKey_dictInsert_iff d m.id a (metaOfMovie m)).mpr (Or.inl h))
    · rw [List.map_cons, List.mem_cons] at h
      rcases h with h | h
      · exact Or.inl ((hasKey_dictInsert_iff d m.id a (metaOfMovie m)).mpr (Or.inr h))
      · exact Or.inr h

/-- A held key is found by the dict lookup. -/
theorem dictFind_ne_none_of_hasKey (d : List (String × MovieMeta)) (a : String)
    (h : hasKey d a = true) : dictFind d a ≠ none := by
  intro hnone
  rw [dictFind] at hnone
  have hf : d.find? (fun p => p.1 == a) = none := by
    cases hfa : d.find? (fun p => p.1 == a)
    · rfl
    · rw [hfa] at hnone
      simp at hnone
  have hall := List.find?_eq_none.mp hf
  rcases (hasKey_iff d a).mp h with ⟨p, hp, hpk⟩
  exact (hall p hp) (beq_iff_eq.mpr hpk)

/-! ### Helper lemma about the candidate loop -/

/-- The candidate loop of `search` collects the first `k` candidates
passing the (fail-open) filters, in scan order. -/
theorem scanCandidates_take_filter (sims : List ℚ) (ids : List String)
    (dict : List (String × MovieMeta)) (f : Filters) :
    ∀ (l : List Nat) (k : Nat),
      scanCandidates sims ids dict f l k =
        ((l.filter (fun i => passFilters f (dictGetD dict (ids.getD i "")))).take k).map
          (fun i => mkSearchResult (ids.getD i "") (dictGetD dict (ids.getD i ""))
            (sims.getD i 0)) := by
  intro l
  induction l with
  | nil =>
    intro k
    simp [scanCandidates]
  | cons i rest ih =>
    intro k
    rcases Nat.eq_zero_or_pos k with hk | hk
    · subst hk
      simp [scanCandidates]
    · obtain ⟨k2, rfl⟩ : ∃ k2, k = k2 + 1 := ⟨k - 1, by omega⟩
      cases hp : passFilters f (dictGetD dict (ids.getD i "")) with
      | true =>
        have hp2 : passFilters f (dictGetD dict ((ids[i]?).getD "")) = true := by
          simpa [List.getD_eq_getElem?_getD] using hp
        rw [List.filter_cons_of_pos (by exact hp)]
        rw [List.take_succ_cons, List.map_cons, ← ih k2]
        simp [scanCandidates, hp2]
      | false =>
        have hp2 : passFilters f (dictGetD dict ((ids[i]?).getD "")) = false := by
          simpa [List.getD_eq_getElem?_getD] using hp
        rw [List.filter_cons_of_neg (by simpa [List.getD_eq_getElem?_getD] using hp),
          ← ih (k2 + 1)]
        simp [scanCandidates, hp2]

/-! ### Theorems settling the claims -/

/-- Claim C8: a record is included in the built index iff its
description, after stripping whitespace, is strictly longer than 5
characters (the truthiness guard `m[6] and ...` is redundant because
an empty description strips to length 0); in particular a record whose
stripped description has length at most 5 is excluded and one whose
stripped description has length 11 is included. -/
theorem indexable_iff_stripped_length (m : Movie) :
    indexable m = true ↔ (pyStrip m.intro).length > 5 := by
  unfold indexable
  by_cases h : m.intro = ""
  · simp [h]
    decide
  · simp [h]

/-- Claim C10: when the active generation holds exactly one entry,
`search_by_id` on that entry's own identifier returns the empty list
for every `top_k`: the slice from rank 2 of a one-element ranking is
empty. -/
theorem search_by_id_singleton_empty (env : Env) (s : VSState) (v : Vec)
    (mid : String) (top_k : Nat)
    (hv : s.vectors = some [v]) (hi : s.movie_ids = some [mid]) :
    searchById env s mid top_k = Except.ok [] := by
  simp [searchById, hv, hi, argsortDesc]

/-- Witness for C10 at a concrete one-entry generation. -/
theorem search_by_id_singleton_empty_witness :
    searchById envTie sOne "a" 3 = Except.ok [] :=
  search_by_id_singleton_empty envTie sOne [1, 0] "a" 3 rfl rfl

/-- Claim C6: an exception while evaluating the filters for one
candidate makes that candidate pass all filters (fail-open), so the
candidate loop of `search` appends it and continues with the remaining
candidates using one unit less of the `top_k` budget. -/
theorem filter_fault_fail_open (sims : List ℚ) (ids : List String)
    (dict : List (String × MovieMeta)) (f : Filters) (rest : List Nat) (i k : Nat)
    (h : applyFiltersE f (dictGetD dict (ids.getD i "")) = Except.error ()) :
    passFilters f (dictGetD dict (ids.getD i "")) = true ∧
    scanCandidates sims ids dict f (i :: rest) (k + 1) =
      mkSearchResult (ids.getD i "") (dictGetD dict (ids.getD i "")) (sims.getD i 0)
        :: scanCandidates sims ids dict f rest k := by
  have hp : passFilters f (dictGetD dict (ids.getD i "")) = true := by
    unfold passFilters
    rw [h]
  refine ⟨hp, ?_⟩
  have hp2 : passFilters f (dictGetD dict ((ids[i]?).getD "")) = true := by
    simpa [List.getD_eq_getElem?_getD] using hp
  simp [scanCandidates, hp2]

/-- Witness for C6: a malformed year bound faults, the candidate is
appended and the scan proceeds. -/
theorem filter_fault_fail_open_witness :
    passFilters faultyFilters defaultMeta = true ∧
    scanCandidates [] [] [] faultyFilters [0] 1 =
      [mkSearchResult "" defaultMeta 0] :=
  filter_fault_fail_open [] [] [] faultyFilters [] 0 0 (by decide)

/-- Counterexample to claim C3 as stated: with a corpus of two movies
whose stored vectors are identical, the similarity row ties at the
maximum, the duplicate occupies rank 1 and the queried movie itself
rank 2, so `search_by_id` returns the queried identifier among its
results. -/
theorem search_by_id_self_tie_cex :
    (sTie.movie_ids.getD []).length = 2 ∧
    "a" ∈ sTie.movie_ids.getD [] ∧
    "a" ∈ simResultIds (searchById envTie sTie "a" 6) := by
  with_unfolding_all decide

/-- Claim C3 (amended): for a generation of any size, when the queried
row's self-similarity strictly exceeds the similarity of every other
row (no tie at the top), `search_by_id` never returns the queried
identifier: the rank-based slice from position 2 drops exactly the
queried row. -/
theorem search_by_id_excludes_self_of_strict_max
    (env : Env) (s : VSState) (movie_id : String) (top_k : Nat)
    (vecs : List Vec) (ids : List String) (idx : Nat) (sims : List ℚ)
    (hv : s.vectors = some vecs) (hi : s.movie_ids = some ids)
    (hmem : movie_id ∈ ids) (hnodup : ids.Nodup) (hlen : ids.length = vecs.length)
    (hidx : idx = List.indexOf movie_id ids)
    (hsims : sims = vecs.map (cosSim (vecs.getD idx [])))
    (hstrict : ∀ j, j < sims.length → j ≠ idx → sims.getD j 0 < sims.getD idx 0) :
    movie_id ∉ simResultIds (searchById env s movie_id top_k) := by
  subst hidx
  subst hsims
  have hcontains : ids.contains movie_id = true := by simpa using hmem
  have hlen2 : (vecs.map (cosSim (vecs.getD (List.indexOf movie_id ids) []))).length
      = vecs.length := List.length_map _ _
  have hidx_lt : List.indexOf movie_id ids < ids.length := List.indexOf_lt_length.mpr hmem
  have hidx_lt2 : List.indexOf movie_id ids <
      (vecs.map (cosSim (vecs.getD (List.indexOf movie_id ids) []))).length := by
    rw [hlen2, ← hlen]
    exact hidx_lt
  obtain ⟨t, ht⟩ := argsortDesc_head_max _ _ hidx_lt2 hstrict
  simp only [searchById, hv, Option.isNone_some, Bool.false_eq_true, if_false]
  rw [hi]
  simp only [hcontains, Bool.not_true, Bool.false_eq_true, if_false, ht, simResultIds]
  rw [List.map_map, List.mem_map]
  rintro ⟨j, hjmem, hjeq⟩
  have hjt : j ∈ t := List.take_subset top_k t (by simpa using hjmem)
  have hjds : j ∈ argsortDesc (List.map (cosSim (vecs.getD (List.indexOf movie_id ids) [])) vecs) := by
    rw [ht]
    exact List.mem_cons_of_mem _ hjt
  have hjlt : j < (List.map (cosSim (vecs.getD (List.indexOf movie_id ids) [])) vecs).length :=
    (argsortDesc_mem_iff _ _).mp hjds
  have hnd := argsortDesc_nodup (List.map (cosSim (vecs.getD (List.indexOf movie_id ids) [])) vecs)
  rw [ht] at hnd
  have hjne : j ≠ List.indexOf movie_id ids := by
    intro hje
    exact (List.nodup_cons.mp hnd).1 (hje ▸ hjt)
  have hjlt_ids : j < ids.length := by
    rw [hlen, ← hlen2]
    exact hjlt
  have hgetj : ids.getD j "" = ids[j] := List.getD_eq_getElem _ _ hjlt_ids
  have hgeti : ids[List.indexOf movie_id ids] = movie_id := List.getElem_indexOf hidx_lt
  have hid : ids.getD j "" = movie_id := by simpa using hjeq
  rw [hgetj] at hid
  rw [← hgeti] at hid
  exact hjne (hnodup.getElem_inj_iff.mp hid)

/-- Witness for the amended C3 at a two-entry generation with distinct
rows. -/
theorem search_by_id_excludes_self_witness :
    "a" ∉ simResultIds (searchById envTie sDistinct "a" 6) :=
  search_by_id_excludes_self_of_strict_max envTie sDistinct "a" 6
    [[1, 0], [0, 1]] ["a", "b"] 0 [1, 0] rfl rfl (by decide) (by decide) rfl rfl
    (by with_unfolding_all decide) (by with_unfolding_all decide)

/-- Claim C2 (amended): a failed build attempt on the rebuild path
leaves the object exactly as the source assignments dictate: an
encoder-load failure leaves every field untouched, but a batch-encode
failure leaves a torn generation whose identifier sequence and
metadata map are from the new build while the vector matrix still
holds the previous generation's rows. -/
theorem build_failure_behavior (env : Env) (s : VSState) (force : Bool)
    (hpath : force = true ∨ (s.vectors = none ∧ env.cache = none)) :
    (s.modelLoaded = false → env.loadModelOk = false →
        buildIndex env force s = ⟨s, none, false, some VErr.modelLoad⟩) ∧
    (env.loadModelOk = true → env.encodeOk = false →
        env.records.filter indexable ≠ [] →
        (buildIndex env force s).err = some VErr.encodeFail ∧
        (buildIndex env force s).state.vectors = s.vectors ∧
        (buildIndex env force s).state.movie_ids
          = some ((env.records.filter indexable).map (fun m => m.id)) ∧
        (buildIndex env force s).state.id_to_meta
          = some (buildMetaDict (env.records.filter indexable))) := by
  have hred : buildIndex env force s = rebuildPhase env s := by
    rcases hpath with h | ⟨h1, h2⟩
    · subst h
      simp [buildIndex]
    · simp [buildIndex, h1, h2]
  rw [hred]
  constructor
  · intro h1 h2
    simp [rebuildPhase, h1, h2]
  · intro h1 h2 h3
    have hne : (env.records.filter indexable).isEmpty = false := by
      simpa [List.isEmpty_iff] using h3
    simp [rebuildPhase, h1, h2, hne]

/-- Counterexample to claim C2 as stated: with a published one-entry
generation, a forced rebuild whose batch encode raises leaves the old
vector matrix in place but the new identifier sequence published — a
torn generation, so the previous generation did not remain unchanged. -/
theorem build_failure_torn_cex :
    (buildIndex envEncodeFail true sOld).err = some VErr.encodeFail ∧
    (buildIndex envEncodeFail true sOld).state.vectors = sOld.vectors ∧
    (buildIndex envEncodeFail true sOld).state.movie_ids ≠ sOld.movie_ids ∧
    (buildIndex envEncodeFail true sOld).state.movie_ids = some ["m1"] := by
  with_unfolding_all decide

/-- Witness for the amended C2: the encoder-load failure case and the
batch-encode failure case, both at concrete inputs. -/
theorem build_failure_behavior_witness :
    buildIndex envLoadFail true initState = ⟨initState, none, false, some VErr.modelLoad⟩ ∧
    (buildIndex envEncodeFail true sOld).err = some VErr.encodeFail := by
  refine ⟨(build_failure_behavior envLoadFail initState true (Or.inl rfl)).1 rfl rfl, ?_⟩
  exact ((build_failure_behavior envEncodeFail sOld true (Or.inl rfl)).2 rfl rfl (by decide)).1

/-- Claim C4 (amended): `search` returns the empty list (no exception)
when the corpus has zero indexable records, and `search_by_id` returns
the empty list for an unknown identifier when a generation exists; but
when no generation exists because the corpus has zero indexable
records, `search_by_id` raises a `TypeError` from the membership test
on the still-`None` identifier sequence. -/
theorem empty_and_unknown_query_behavior (env : Env) (s : VSState)
    (q mid : String) (k : Nat) (f : Filters) :
    (s.vectors = none → (buildIndex env false s).err = none →
        (buildIndex env false s).state.vectors = none →
        search env s q k f = Except.ok []) ∧
    (s.vectors = none → (buildIndex env false s).err = none →
        (buildIndex env false s).state.movie_ids = none →
        searchById env s mid k = Except.error VErr.typeNone) ∧
    (∀ ids, s.vectors.isSome = true → s.movie_ids = some ids → mid ∉ ids →
        searchById env s mid k = Except.ok []) := by
  refine ⟨?_, ?_, ?_⟩
  · intro h1 h2 h3
    simp [search, h1, h2, h3]
  · intro h1 h2 h3
    simp [searchById, h1, h2, h3]
  · intro ids h1 h2 h3
    rcases Option.isSome_iff_exists.mp h1 with ⟨v, hv⟩
    have hc : ids.contains mid = false := by simpa using h3
    simp [searchById, hv, h2, hc]
    intro h
    exact absurd h h3

/-- Counterexample to claim C4 as stated: on a zero-record corpus,
`search` returns the empty list but `search_by_id` raises instead of
returning the empty list. -/
theorem search_by_id_empty_corpus_cex :
    List.filter indexable envEmptyRepo.records = [] ∧
    search envEmptyRepo initState "anything" 5 noFilters = Except.ok [] ∧
    searchById envEmptyRepo initState "x" 6 = Except.error VErr.typeNone := by
  with_unfolding_all decide

/-- Witness for the amended C4 at concrete inputs for all three
branches. -/
theorem empty_and_unknown_query_behavior_witness :
    search envEmptyRepo initState "q" 5 noFilters = Except.ok [] ∧
    searchById envEmptyRepo initState "nobody" 6 = Except.error VErr.typeNone ∧
    searchById envTie sDistinct "zz" 6 = Except.ok [] := by
  refine ⟨?_, ?_, ?_⟩
  · exact (empty_and_unknown_query_behavior envEmptyRepo initState "q" "nobody" 5 noFilters).1
      rfl (by with_unfolding_all decide) (by with_unfolding_all decide)
  · exact (empty_and_unknown_query_behavior envEmptyRepo initState "q" "nobody" 6 noFilters).2.1
      rfl (by with_unfolding_all decide) (by with_unfolding_all decide)
  · exact (empty_and_unknown_query_behavior envTie sDistinct "q" "zz" 6 noFilters).2.2
      ["a", "b"] rfl rfl (by decide)

/-- Claim C5: with no cache file and a cold state, two successive
non-forced builds over unchanged records perform exactly one
underlying encode — the second call is an exact no-op because a
generation exists — while a forced build always rebuilds regardless of
the current state. -/
theorem ensure_ready_idempotent (env : Env) (s : VSState)
    (hload : env.loadModelOk = true) (henc : env.encodeOk = true)
    (hne : env.records.filter indexable ≠ []) :
    (env.cache = none → s.vectors = none →
        (buildIndex env false s).didEncode = true ∧
        buildIndex env false ((buildIndex env false s).state)
          = ⟨(buildIndex env false s).state, none, false, none⟩) ∧
    (buildIndex env true s).didEncode = true := by
  have hne2 : (env.records.filter indexable).isEmpty = false := by
    simpa [List.isEmpty_iff] using hne
  constructor
  · intro hc hv
    have hred : buildIndex env false s = rebuildPhase env s := by
      simp [buildIndex, hv, hc]
    rw [hred, rebuildPhase_success env s hload henc hne2]
    constructor
    · rfl
    · simp [buildIndex]
  · have hred : buildIndex env true s = rebuildPhase env s := by
      simp [buildIndex]
    rw [hred, rebuildPhase_success env s hload henc hne2]

/-- Witness for C5 at a concrete two-record environment. -/
theorem ensure_ready_idempotent_witness :
    (buildIndex envTwo false initState).didEncode = true ∧
    buildIndex envTwo false ((buildIndex envTwo false initState).state)
      = ⟨(buildIndex envTwo false initState).state, none, false, none⟩ ∧
    (buildIndex envTwo true initState).didEncode = true := by
  have h := ensure_ready_idempotent envTwo initState rfl rfl (by decide)
  exact ⟨(h.1 rfl rfl).1, (h.1 rfl rfl).2, h.2⟩

/-- Claim C7: a non-forced build finding a cache blob adopts it without
rebuilding when its identifier count matches the live record count,
and otherwise — on a count mismatch or a deserialization failure —
performs a full rebuild, with no error propagated in either case. -/
theorem cache_path_behavior (env : Env) (s : VSState) (g : Gen)
    (hv : s.vectors = none)
    (hload : env.loadModelOk = true) (henc : env.encodeOk = true)
    (hne : env.records.filter indexable ≠ []) :
    (env.cache = some (Except.ok g) → g.movie_ids.length = env.records.length →
        buildIndex env false s = ⟨adoptGen s g, none, false, none⟩) ∧
    (env.cache = some (Except.ok g) → g.movie_ids.length ≠ env.records.length →
        (buildIndex env false s).didEncode = true ∧
        (buildIndex env false s).err = none) ∧
    (env.cache = some (Except.error ()) →
        (buildIndex env false s).didEncode = true ∧
        (buildIndex env false s).err = none) := by
  have hne2 : (env.records.filter indexable).isEmpty = false := by
    simpa [List.isEmpty_iff] using hne
  refine ⟨?_, ?_, ?_⟩
  · intro hc heq
    simp [buildIndex, hv, hc, heq]
  · intro hc hne3
    have hred : buildIndex env false s = rebuildPhase env (adoptGen s g) := by
      simp [buildIndex, hv, hc, hne3]
    rw [hred, rebuildPhase_success env (adoptGen s g) hload henc hne2]
    exact ⟨rfl, rfl⟩
  · intro hc
    have hred : buildIndex env false s = rebuildPhase env s := by
      simp [buildIndex, hv, hc]
    rw [hred, rebuildPhase_success env s hload henc hne2]
    exact ⟨rfl, rfl⟩

/-- Witness for C7 at concrete fresh, stale and corrupt cache blobs. -/
theorem cache_path_behavior_witness :
    buildIndex envCacheFresh false initState = ⟨adoptGen initState gFresh, none, false, none⟩ ∧
    ((buildIndex envCacheStale false initState).didEncode = true ∧
      (buildIndex envCacheStale false initState).err = none) ∧
    ((buildIndex envCacheCorrupt false initState).didEncode = true ∧
      (buildIndex envCacheCorrupt false initState).err = none) :=
  ⟨(cache_path_behavior envCacheFresh initState gFresh rfl rfl rfl (by decide)).1 rfl (by decide),
    (cache_path_behavior envCacheStale initState gStale rfl rfl rfl (by decide)).2.1 rfl (by decide),
    (cache_path_behavior envCacheCorrupt initState gStale rfl rfl rfl (by decide)).2.2 rfl⟩

/-- Claim C1: a successful rebuild publishes index-aligned structures:
the identifier sequence is the ids of the indexable records in order,
row i of the matrix is the encoding of record i's rendered sentence,
the three lengths agree (the metadata length under the unique-ids
precondition), and every identifier is a key of the metadata map. -/
theorem build_index_alignment (env : Env) (s : VSState) (valid : List Movie)
    (hvalid : valid = env.records.filter indexable)
    (hload : env.loadModelOk = true) (henc : env.encodeOk = true)
    (hne : valid ≠ [])
    (hnodup : (valid.map (fun m => m.id)).Nodup) :
    (buildIndex env true s).err = none ∧
    (buildIndex env true s).state.movie_ids = some (valid.map (fun m => m.id)) ∧
    (buildIndex env true s).state.vectors
      = some ((valid.map renderSentence).map env.enc) ∧
    (buildIndex env true s).state.id_to_meta = some (buildMetaDict valid) ∧
    (valid.map (fun m => m.id)).length = ((valid.map renderSentence).map env.enc).length ∧
    (buildMetaDict valid).length = (valid.map (fun m => m.id)).length ∧
    (∀ i, i < valid.length →
        (valid.map (fun m => m.id)).getD i "" = (valid.getD i defaultMovie).id ∧
        ((valid.map renderSentence).map env.enc).getD i []
          = env.enc (renderSentence (valid.getD i defaultMovie))) ∧
    (∀ a, a ∈ valid.map (fun m => m.id) → dictFind (buildMetaDict valid) a ≠ none) := by
  have hne2 : (env.records.filter indexable).isEmpty = false := by
    rw [← hvalid]
    simpa [List.isEmpty_iff] using hne
  have hred : buildIndex env true s = rebuildPhase env s := by
    simp [buildIndex]
  rw [hred, rebuildPhase_success env s hload henc hne2, ← hvalid]
  refine ⟨rfl, rfl, rfl, rfl, by simp,
    (buildMetaDict_length valid hnodup).trans (by simp), ?_, ?_⟩
  · intro i hi
    have hi2 : i < (valid.map (fun m => m.id)).length := by simpa using hi
    have hi3 : i < ((valid.map renderSentence).map env.enc).length := by simpa using hi
    constructor
    · rw [List.getD_eq_getElem _ _ hi2, List.getD_eq_getElem _ _ hi, List.getElem_map]
    · rw [List.getD_eq_getElem _ _ hi3, List.getD_eq_getElem _ _ hi, List.getElem_map,
        List.getElem_map]
  · intro a ha
    exact dictFind_ne_none_of_hasKey _ _ (hasKey_foldl_of_mem valid [] a (Or.inr ha))

/-- Witness for C1 at a concrete two-record build. -/
theorem build_index_alignment_witness :
    (buildIndex envTwo true initState).err = none ∧
    (buildIndex envTwo true initState).state.movie_ids
      = some (([mv1, mv2]).map (fun m => m.id)) ∧
    (buildMetaDict [mv1, mv2]).length = (([mv1, mv2]).map (fun m => m.id)).length := by
  have h := build_index_alignment envTwo initState [mv1, mv2] (by decide) rfl rfl
    (by decide) (by decide)
  exact ⟨h.1, h.2.1, h.2.2.2.2.2.1⟩

/-- Claim C9: `search` returns at most `top_k` results and at most as
many results as there are generation entries passing the (fail-open)
filters, and returns the empty list when no generation exists after
the triggered build or when the generation has zero entries. -/
theorem search_result_bounds (env : Env) (s : VSState) (query : String)
    (top_k : Nat) (f : Filters) :
    (∀ vecs ids dict, s.vectors = some vecs → s.movie_ids = some ids →
        s.id_to_meta = some dict →
        okLength (search env s query top_k f) ≤ top_k ∧
        okLength (search env s query top_k f) ≤
          (List.range vecs.length).countP
            (fun i => passFilters f (dictGetD dict (ids.getD i "")))) ∧
    (s.vectors = some [] → search env s query top_k f = Except.ok []) ∧
    (s.vectors = none → (buildIndex env false s).err = none →
        (buildIndex env false s).state.vectors = none →
        search env s query top_k f = Except.ok []) := by
  refine ⟨?_, ?_, ?_⟩
  · intro vecs ids dict hv hi hd
    by_cases hz : vecs.length = 0
    · have hnil : vecs = [] := List.length_eq_zero.mp hz
      subst hnil
      simp [search, hv, okLength]
    · by_cases hm : (!s.modelLoaded && !env.loadModelOk) = true
      · have herr : search env s query top_k f = Except.error VErr.modelLoad := by
          simp [search, hv, hz, hm]
        rw [herr]
        simp [okLength]
      · have hm2 : (!s.modelLoaded && !env.loadModelOk) = false := by
          cases hb : (!s.modelLoaded && !env.loadModelOk)
          · rfl
          · exact absurd hb hm
        have hred : search env s query top_k f =
            Except.ok (scanCandidates
              (vecs.map (cosSim (env.enc (bgeQueryText s.modelName query)))) ids dict f
              (argsortDesc (vecs.map (cosSim (env.enc (bgeQueryText s.modelName query)))))
              top_k) := by
          simp [search, hv, hi, hd, hz, hm2]
        rw [hred, okLength, scanCandidates_take_filter]
        rw [List.length_map, List.length_take]
        constructor
        · exact min_le_left _ _
        · have hperm := argsortDesc_perm
            (vecs.map (cosSim (env.enc (bgeQueryText s.modelName query))))
          have hcnt : ((argsortDesc (vecs.map (cosSim (env.enc (bgeQueryText s.modelName query))))).filter
                (fun i => passFilters f (dictGetD dict (ids.getD i "")))).length
              = (List.range vecs.length).countP
                (fun i => passFilters f (dictGetD dict (ids.getD i ""))) := by
            rw [← List.countP_eq_length_filter]
            rw [hperm.countP_eq]
            rw [List.length_map]
          rw [← hcnt]
          exact min_le_right _ _
  · intro hv
    simp [search, hv]
  · intro h1 h2 h3
    simp [search, h1, h2, h3]

/-- Witness for C9: a three-entry generation with `top_k = 5` yields at
most three results, and an empty corpus yields the empty list. -/
theorem search_result_bounds_witness :
    okLength (search envTie sThree "q" 5 noFilters) ≤ 5 ∧
    okLength (search envTie sThree "q" 5 noFilters) ≤
      (List.range ([[1, 0], [0, 1], [1, 0]] : List Vec).length).countP
        (fun i => passFilters noFilters
          (dictGetD [("a", metaOfMovie mv1), ("b", metaOfMovie mv2), ("c", metaOfMovie mv3)]
            ((["a", "b", "c"] : List String).getD i ""))) ∧
    search envEmptyRepo initState "q" 5 noFilters = Except.ok [] := by
  have h := (search_result_bounds envTie sThree "q" 5 noFilters).1
    [[1, 0], [0, 1], [1, 0]] ["a", "b", "c"]
    [("a", metaOfMovie mv1), ("b", metaOfMovie mv2), ("c", metaOfMovie mv3)] rfl rfl rfl
  refine ⟨h.1, h.2, ?_⟩
  exact (search_result_bounds envEmptyRepo initState "q" 5 noFilters).2.2 rfl
    (by with_unfolding_all decide) (by with_unfolding_all decide)

end DV
